import Mathlib

/-!
Verification development for the MCP/A2A weather-agent repository.

The agent orchestration core lives in
`A2A Server Weather Agent with Google Cloud Run/app/agent.py`
(`mcp_tools`, `call_mcp_tool_sync`, `WeatherAgent.stream`,
`WeatherAgent.get_agent_response`), and the weather tool server in
`MCP server with Google Cloud Run/server.py` (`get_current_weather`,
`get_weather_forecast`).  The definitions below are a shallow embedding of
those functions.  External effects (the MCP client round trip, the HTTP
fetch to OpenWeatherMap, the asyncio event-loop state) are represented by
explicit outcome parameters; Python exceptions are represented by
`Except String`, a caught exception being an `Except.error` carrying the
exception's string rendering.  Numeric JSON payloads are only copied, never
computed with, so they are modelled as `Int`.
-/

/-! ## Classifier data model (agent.py, `ResponseFormat` / graph state) -/

/-- The three values of `ResponseFormat.status`
(`Literal['input_required', 'completed', 'error']`). -/
inductive RStatus where
  | input_required
  | completed
  | error
deriving DecidableEq, Repr

/-- The pydantic `ResponseFormat` model: a status plus a message. -/
structure ResponseFormat where
  status : RStatus
  message : String
deriving DecidableEq, Repr

/-- What `current_state.values.get('structured_response')` can hold: the key
may be absent (Python `None`), present but not a `ResponseFormat` instance
(the `isinstance` guard fails; the `tag` records the foreign value), or a
well-typed `ResponseFormat`. -/
inductive StructuredField where
  | absent
  | wrongShape (tag : String)
  | wellTyped (r : ResponseFormat)
deriving DecidableEq, Repr

/-- A trace element's latest message, as inspected by the stream loop:
an `AIMessage` carrying its `tool_calls` list (opaque call descriptors),
a `ToolMessage` carrying its content, or any other message kind. -/
inductive TraceMessage where
  | ai (tool_calls : List String)
  | toolResult (content : String)
  | other (tag : String)
deriving DecidableEq, Repr

/-- The graph state read back by `get_agent_response`: the message history
plus the `structured_response` entry of `current_state.values`. -/
structure GraphState where
  messages : List TraceMessage
  structured_response : StructuredField
deriving DecidableEq, Repr

/-- The event dictionaries yielded by `WeatherAgent.stream`. -/
structure ProgressEvent where
  is_task_complete : Bool
  require_user_input : Bool
  content : String
deriving DecidableEq, Repr

/-- The fixed fallback content returned when the structured response is
missing or of the wrong shape. -/
def genericRetryMessage : String :=
  "We are unable to process your request at the moment. Please try again."

/-- Embedding of `WeatherAgent.get_agent_response`: reads only the
`structured_response` entry of the graph state and classifies it.  The
source checks `structured_response and isinstance(structured_response,
ResponseFormat)`, then matches the three literal statuses in order, and
falls back to the generic retry event otherwise. -/
def get_agent_response (state : GraphState) : ProgressEvent :=
  match state.structured_response with
  | StructuredField.wellTyped r =>
    match r.status with
    | RStatus.input_required =>
        { is_task_complete := false, require_user_input := true
          content := r.message }
    | RStatus.error =>
        { is_task_complete := false, require_user_input := true
          content := r.message }
    | RStatus.completed =>
        { is_task_complete := true, require_user_input := false
          content := r.message }
  | _ =>
      { is_task_complete := false, require_user_input := true
        content := genericRetryMessage }

/-! ## Streaming loop (agent.py, `WeatherAgent.stream`) -/

/-- The event yielded when the latest message is an `AIMessage` whose
`tool_calls` list is non-empty. -/
def checkingEvent : ProgressEvent :=
  { is_task_complete := false, require_user_input := false
    content := "Checking the weather..." }

/-- The event yielded when the latest message is a `ToolMessage`. -/
def processingEvent : ProgressEvent :=
  { is_task_complete := false, require_user_input := false
    content := "Processing weather data.." }

/-- Per-trace-element event mapping of the loop body in
`WeatherAgent.stream`: an `AIMessage` with a non-empty `tool_calls` list
yields the checking event, a `ToolMessage` yields the processing event,
every other message shape yields nothing. -/
def stepEvent : TraceMessage → Option ProgressEvent
  | TraceMessage.ai tool_calls =>
      if tool_calls.length > 0 then some checkingEvent else none
  | TraceMessage.toolResult _ => some processingEvent
  | TraceMessage.other _ => none

/-- Embedding of `WeatherAgent.stream`.  The underlying `graph.stream`
call is external (it runs the LLM); its output is the `trace` parameter,
the sequence of latest messages of the streamed value snapshots, and the
graph state left behind for `get_agent_response` is the `final` parameter.
The loop yields one event per matching trace element, then yields the
classifier's terminal event exactly once. -/
def stream (query : String) (context_id : String)
    (trace : List TraceMessage) (final : GraphState) : List ProgressEvent :=
  trace.filterMap stepEvent ++ [get_agent_response final]

/-- An event that reports completion or demands user input; the two
intermediate progress events have both flags false, while every classifier
output sets at least one flag. -/
def isTerminalEvent (e : ProgressEvent) : Bool :=
  e.is_task_complete || e.require_user_input

/-! ## JSON values and tool-input parsing (agent.py, `tool_function`) -/

/-- JSON values, the possible results of `json.loads`. -/
inductive JsonValue where
  | str (s : String)
  | num (n : Int)
  | bool (b : Bool)
  | null
  | obj (fields : List (String × JsonValue))
  | arr (elems : List JsonValue)

/-- The opening-brace character, `'\x7b'`. -/
def openBraceChar : Char := Char.ofNat 123

/-- The closing-brace character, `'\x7d'`. -/
def closeBraceChar : Char := Char.ofNat 125

/-- Skips a run of whitespace characters. -/
def jsonSkipWs : List Char → List Char
  | [] => []
  | c :: rest => if c.isWhitespace then jsonSkipWs rest else c :: rest

/-- Reads the body of a double-quoted string up to its closing quote.
Escape sequences are not modelled and make the parse fail. -/
def jsonTakeStringAux : List Char → Option (List Char × List Char)
  | [] => none
  | c :: rest =>
    if c = '\"' then some ([], rest)
    else if c = '\\' then none
    else
      match jsonTakeStringAux rest with
      | some (acc, rem) => some (c :: acc, rem)
      | none => none

/-- Reads a double-quoted string literal. -/
def jsonTakeString (cs : List Char) : Option (String × List Char) :=
  match cs with
  | c :: rest =>
    if c = '\"' then
      match jsonTakeStringAux rest with
      | some (acc, rem) => some (String.mk acc, rem)
      | none => none
    else none
  | [] => none

/-- Reads a comma-separated sequence of `"key" : "value"` pairs followed by
the closing brace; `fuel` bounds the recursion by the input length. -/
def jsonPairs : Nat → List Char → Option (List (String × JsonValue) × List Char)
  | 0, _ => none
  | fuel + 1, cs =>
    match jsonTakeString (jsonSkipWs cs) with
    | none => none
    | some (key, rest) =>
      match jsonSkipWs rest with
      | ':' :: rest2 =>
        match jsonTakeString (jsonSkipWs rest2) with
        | none => none
        | some (val, rest3) =>
          match jsonSkipWs rest3 with
          | c :: rest4 =>
            if c = ',' then
              match jsonPairs fuel rest4 with
              | some (pairs, rem) => some ((key, JsonValue.str val) :: pairs, rem)
              | none => none
            else if c = closeBraceChar then
              some ([(key, JsonValue.str val)], rest4)
            else none
          | [] => none
      | _ => none

/-- Model of Python `json.loads` restricted to flat JSON objects with
string keys and string values (no escape sequences); every other input is
rejected with `none`, standing for a raised `json.JSONDecodeError`.  This
covers the tool-input shapes the agent's argument-parsing policy is
exercised with. -/
def jsonLoadsObj (s : String) : Option JsonValue :=
  match jsonSkipWs s.data with
  | c :: rest =>
    if c = openBraceChar then
      match jsonSkipWs rest with
      | d :: rest2 =>
        if d = closeBraceChar then
          match jsonSkipWs rest2 with
          | [] => some (JsonValue.obj [])
          | _ => none
        else
          match jsonPairs (rest.length + 1) (d :: rest2) with
          | some (pairs, rem) =>
            match jsonSkipWs rem with
            | [] => some (JsonValue.obj pairs)
            | _ => none
          | none => none
      | [] => none
    else none
  | [] => none

/-- Model of Python `s.startswith(c)` for a one-character pattern. -/
def pyStartsWith (s : String) (c : Char) : Bool :=
  match s.data with
  | [] => false
  | a :: _ => a = c

/-- Model of Python `s.endswith(c)` for a one-character pattern. -/
def pyEndsWith (s : String) (c : Char) : Bool :=
  s.data.getLast? = some c

/-- Model of Python `s.strip()`: drop leading and trailing whitespace. -/
def pyStrip (s : String) : String :=
  String.mk (jsonSkipWs ((jsonSkipWs s.data.reverse).reverse))

/-- Embedding of the argument-parsing step of `tool_function`: if the
input starts with an opening brace and ends with a closing brace, it is
handed to `json.loads` (modelled by the `json_loads` parameter, `none`
standing for a raised `json.JSONDecodeError`, which the source catches);
otherwise, and on parse failure, the stripped input is wrapped as
`{"location": ...}`. -/
def tool_function_arguments (json_loads : String → Option JsonValue)
    (tool_input : String) : JsonValue :=
  if pyStartsWith tool_input openBraceChar && pyEndsWith tool_input closeBraceChar then
    match json_loads tool_input with
    | some v => v
    | none => JsonValue.obj [("location", JsonValue.str (pyStrip tool_input))]
  else
    JsonValue.obj [("location", JsonValue.str (pyStrip tool_input))]

/-! ## Synchronous tool adapter (agent.py, `call_mcp_tool_sync`) -/

/-- One element of `result.content` from an MCP tool call. -/
structure ContentItem where
  text : String
deriving DecidableEq, Repr

/-- Outcome of the remote MCP round trip performed inside
`_call_mcp_tool`: either the call returned a result whose `content` is a
possibly-absent list of items, or some exception was raised (timeout,
connection failure, remote-reported error); `detail` is its `str(e)`. -/
inductive RemoteOutcome where
  | ok (content : Option (List ContentItem))
  | exn (detail : String)
deriving DecidableEq, Repr

/-- Embedding of the inner coroutine `_call_mcp_tool`: on success it
returns the first content item's text, or `"No result from <tool>"` when
`result.content` is `None` or empty; any exception is caught and rendered
as `"Error calling <tool>: <detail>"`. -/
def callMcpToolInner (tool_name : String) (outcome : RemoteOutcome) : String :=
  match outcome with
  | RemoteOutcome.ok content =>
    match content with
    | some (c :: _) => c.text
    | some [] => "No result from " ++ tool_name
    | none => "No result from " ++ tool_name
  | RemoteOutcome.exn e => "Error calling " ++ tool_name ++ ": " ++ e

/-- The asyncio situation `call_mcp_tool_sync` finds itself in:
`asyncio.get_event_loop()` returns a running loop, returns a non-running
loop, or the acquisition/run attempt itself raises (the bare `except`). -/
inductive LoopState where
  | running
  | notRunning
  | acquireFails (detail : String)
deriving DecidableEq, Repr

/-- Embedding of `call_mcp_tool_sync`: whichever event-loop branch is
taken (`loop.run_until_complete`, `asyncio.run`, or the bare-except
fallback to `asyncio.run`), the inner coroutine `_call_mcp_tool` is driven
to completion and its string is returned.  The `arguments` mapping is
forwarded to the remote call, whose behaviour the `outcome` oracle
abstracts. -/
def call_mcp_tool_sync (ls : LoopState) (tool_name : String)
    (arguments : JsonValue) (outcome : RemoteOutcome) : String :=
  match ls with
  | LoopState.running => callMcpToolInner tool_name outcome
  | LoopState.notRunning => callMcpToolInner tool_name outcome
  | LoopState.acquireFails _ => callMcpToolInner tool_name outcome

/-- Embedding of `tool_function` (built by `create_langchain_tool`): parse
the tool input into an argument mapping, then invoke the remote tool
synchronously.  `ls` and `outcome` abstract the ambient event-loop state
and the remote round trip. -/
def tool_function (json_loads : String → Option JsonValue)
    (mcp_tool_name : String) (ls : LoopState) (outcome : RemoteOutcome)
    (tool_input : String) : String :=
  call_mcp_tool_sync ls mcp_tool_name
    (tool_function_arguments json_loads tool_input) outcome

/-! ## Tool discovery (agent.py, `mcp_tools` / `discover_mcp_tools`) -/

/-- A tool advertised by the MCP server: its name and its possibly-absent
description (`None` modelled as `none`, an empty string kept as
`some ""`; both are falsy in the source's `or` fallback). -/
structure McpToolInfo where
  name : String
  description : Option String
deriving DecidableEq, Repr

/-- Outcome of the discovery round trip inside `discover_mcp_tools`:
either connecting/listing raised (detail is `str(e)`), or the server
responded with a list of tools. -/
inductive ConnectOutcome where
  | unreachable (detail : String)
  | tools (ts : List McpToolInfo)
deriving DecidableEq, Repr

/-- Embedding of `discover_mcp_tools`: the body raises
`"No tools found on MCP server."` when the advertised list is empty, and
the surrounding `except Exception` clause catches every failure —
including that one — and re-raises it wrapped as
`"Failed to connect to MCP server: <detail>"`. -/
def discover_mcp_tools (o : ConnectOutcome) : Except String (List McpToolInfo) :=
  let attempt : Except String (List McpToolInfo) :=
    match o with
    | ConnectOutcome.unreachable d => Except.error d
    | ConnectOutcome.tools ts =>
      if ts.isEmpty then Except.error "No tools found on MCP server."
      else Except.ok ts
  match attempt with
  | Except.ok ts => Except.ok ts
  | Except.error e => Except.error ("Failed to connect to MCP server: " ++ e)

/-- A LangChain `Tool` as built by `create_langchain_tool`; its `func`
field is `tool_function`, kept separate above. -/
structure LangchainTool where
  name : String
  description : String
deriving DecidableEq, Repr

/-- Embedding of `create_langchain_tool`: the description falls back to
`"MCP tool: <name>"` when the advertised description is falsy (`None` or
the empty string). -/
def create_langchain_tool (t : McpToolInfo) : LangchainTool :=
  { name := t.name
    description :=
      match t.description with
      | some d => if d = "" then "MCP tool: " ++ t.name else d
      | none => "MCP tool: " ++ t.name }

/-- Embedding of `mcp_tools`: discover, then wrap each advertised tool. -/
def mcp_tools (o : ConnectOutcome) : Except String (List LangchainTool) :=
  match discover_mcp_tools o with
  | Except.ok ts => Except.ok (ts.map create_langchain_tool)
  | Except.error e => Except.error e

/-- The state `WeatherAgent.__init__` establishes that depends on
discovery: the tool set handed to `create_react_agent`.  The model
selection reads environment configuration and is external. -/
structure WeatherAgentState where
  tools : List LangchainTool
deriving DecidableEq, Repr

/-- Embedding of the discovery-dependent part of `WeatherAgent.__init__`:
`asyncio.run(mcp_tools(...))` propagates any discovery exception, so no
agent value exists unless discovery returned a tool list. -/
def weatherAgentInit (o : ConnectOutcome) : Except String WeatherAgentState :=
  match mcp_tools o with
  | Except.ok ts => Except.ok { tools := ts }
  | Except.error e => Except.error e

/-! ## Weather MCP server (server.py) -/

/-- Renders a raised `KeyError` for key `k`: Python prints it as the
quoted key. -/
def keyErr (k : String) : String := "'" ++ k ++ "'"

/-- Looks up a JSON object key: a missing key raises `KeyError`. -/
def getKey {α : Type} (o : Option α) (k : String) : Except String α :=
  match o with
  | some v => Except.ok v
  | none => Except.error (keyErr k)

/-- Indexing `[0]` into a JSON array: an empty array raises `IndexError`
(`"list index out of range"`). -/
def index0 {α : Type} (l : List α) : Except String α :=
  match l with
  | [] => Except.error "list index out of range"
  | a :: _ => Except.ok a

/-- Accumulates the current word (reversed) while scanning for
`pySplit`. -/
def pySplitAux : List Char → List Char → List String
  | current, [] =>
    if current.isEmpty then [] else [String.mk current.reverse]
  | current, c :: rest =>
    if c.isWhitespace then
      if current.isEmpty then pySplitAux [] rest
      else String.mk current.reverse :: pySplitAux [] rest
    else pySplitAux (c :: current) rest

/-- Model of Python `str.split()` with no separator: split on whitespace
runs, dropping empty fragments. -/
def pySplit (s : String) : List String :=
  pySplitAux [] s.data

/-- Walks the characters of a string for `pyTitle`; the flag records
whether the previous character was alphabetic. -/
def pyTitleGo : Bool → List Char → List Char
  | _, [] => []
  | prevAlpha, c :: rest =>
    if c.isAlpha then
      (if prevAlpha then c.toLower else c.toUpper) :: pyTitleGo true rest
    else c :: pyTitleGo false rest

/-- Model of Python `str.title()` over ASCII text: the first letter of
every alphabetic run is uppercased, the rest lowercased. -/
def pyTitle (s : String) : String := String.mk (pyTitleGo false s.data)

/-- The `"main"` object of an OpenWeatherMap response; each field may be
absent (a missing key raises `KeyError` at access time). -/
structure MainPayload where
  temp : Option Int
  feels_like : Option Int
  humidity : Option Int
  pressure : Option Int
deriving DecidableEq, Repr

/-- One element of the `"weather"` array. -/
structure WeatherEntry where
  description : Option String
deriving DecidableEq, Repr

/-- The `"wind"` object. -/
structure WindPayload where
  speed : Option Int
deriving DecidableEq, Repr

/-- The JSON body answering a current-weather request. -/
structure CurrentPayload where
  main : Option MainPayload
  weather : Option (List WeatherEntry)
  wind : Option WindPayload
deriving DecidableEq, Repr

/-- One element of the `"list"` array of a forecast response. -/
structure FcItem where
  dt_txt : Option String
  main : Option MainPayload
  weather : Option (List WeatherEntry)
deriving DecidableEq, Repr

/-- The JSON body answering a forecast request. -/
structure ForecastPayload where
  list : Option (List FcItem)
deriving DecidableEq, Repr

/-- Outcome of the HTTP fetch (`requests.get` + `raise_for_status` +
`.json()`): either some step raised (detail is `str(e)`) or a parsed JSON
body was obtained. -/
inductive FetchOutcome (α : Type) where
  | exn (detail : String)
  | ok (data : α)
deriving DecidableEq, Repr

/-- The `try:` body of `get_current_weather`: fetch, then read the fields
in the evaluation order of the `CurrentWeather(...)` keyword arguments
(`temp`, `feels_like`, `humidity`, `description`, `wind.speed`,
`pressure`), then format the reply string. -/
def current_weather_body (location : String)
    (o : FetchOutcome CurrentPayload) : Except String String :=
  match o with
  | FetchOutcome.exn e => Except.error e
  | FetchOutcome.ok data => do
    let m ← getKey data.main "main"
    let temp ← getKey m.temp "temp"
    let feels ← getKey m.feels_like "feels_like"
    let hum ← getKey m.humidity "humidity"
    let wlist ← getKey data.weather "weather"
    let w0 ← index0 wlist
    let descRaw ← getKey w0.description "description"
    let desc := pyTitle descRaw
    let wind ← getKey data.wind "wind"
    let ws ← getKey wind.speed "speed"
    let pres ← getKey m.pressure "pressure"
    Except.ok
      ("Current weather in " ++ location ++ ":\n- Temperature: " ++
        toString temp ++ "°C (feels like " ++ toString feels ++
        "°C)\n- Condition: " ++ desc ++ "\n- Humidity: " ++ toString hum ++
        "%\n- Wind Speed: " ++ toString ws ++ " m/s\n- Pressure: " ++
        toString pres ++ " hPa")

/-- Embedding of the `get_current_weather` tool: the whole body is inside
`try/except Exception`, whose handler returns the error string. -/
def get_current_weather (location : String)
    (o : FetchOutcome CurrentPayload) : String :=
  match current_weather_body location o with
  | Except.ok s => s
  | Except.error e =>
      "Error: Failed to get weather for " ++ location ++ ": " ++ e

/-- The calendar-date computation `item["dt_txt"].split()[0]` for one
forecast list item. -/
def itemDate (it : FcItem) : Except String String := do
  let t ← getKey it.dt_txt "dt_txt"
  index0 (pySplit t)

/-- The temperature read `item["main"]["temp"]`. -/
def itemTemp (it : FcItem) : Except String Int := do
  let m ← getKey it.main "main"
  getKey m.temp "temp"

/-- The description read `item["weather"][0]["description"].title()`. -/
def itemDescription (it : FcItem) : Except String String := do
  let w ← getKey it.weather "weather"
  let e0 ← index0 w
  let d ← getKey e0.description "description"
  Except.ok (pyTitle d)

/-- One entry of the built forecast (the `ForecastItem` pydantic model). -/
structure ForecastItem where
  date : String
  temperature : Int
  description : String
deriving DecidableEq, Repr

/-- Embedding of the de-duplication loop of `get_weather_forecast`:
`processed` is the `processed_dates` set, `count` is
`len(daily_forecasts)` so far.  The date is computed for every item; an
item is appended when its date is new and the count is below `days`. -/
def buildDailyForecasts (days : Int) :
    List FcItem → List String → Nat → Except String (List ForecastItem)
  | [], _, _ => Except.ok []
  | it :: rest, processed, count =>
    match itemDate it with
    | Except.error e => Except.error e
    | Except.ok date =>
      if date ∉ processed ∧ (count : Int) < days then
        match itemTemp it with
        | Except.error e => Except.error e
        | Except.ok temp =>
          match itemDescription it with
          | Except.error e => Except.error e
          | Except.ok descr =>
            match buildDailyForecasts days rest (date :: processed) (count + 1) with
            | Except.error e => Except.error e
            | Except.ok tail =>
              Except.ok
                ({ date := date, temperature := temp, description := descr } :: tail)
      else
        buildDailyForecasts days rest processed count

/-- The per-day lines of the forecast reply string. -/
def forecastLines : List ForecastItem → String
  | [] => ""
  | d :: rest =>
      "- " ++ d.date ++ ": " ++ toString d.temperature ++ "°C, " ++
        d.description ++ "\n" ++ forecastLines rest

/-- The `try:` body of `get_weather_forecast`: fetch, read `data["list"]`,
run the de-duplication loop, then format the reply string. -/
def forecast_body (location : String) (days : Int)
    (o : FetchOutcome ForecastPayload) : Except String String :=
  match o with
  | FetchOutcome.exn e => Except.error e
  | FetchOutcome.ok data => do
    let items ← getKey data.list "list"
    let fc ← buildDailyForecasts days items [] 0
    Except.ok
      (toString fc.length ++ "-day weather forecast for " ++ location ++
        ":\n" ++ forecastLines fc)

/-- Embedding of the `get_weather_forecast` tool: the whole body is inside
`try/except Exception`, whose handler returns the error string. -/
def get_weather_forecast (location : String) (days : Int)
    (o : FetchOutcome ForecastPayload) : String :=
  match forecast_body location days o with
  | Except.ok s => s
  | Except.error e =>
      "Error: Failed to get forecast for " ++ location ++ ": " ++ e

/-- First occurrences of the dates in the second list that are not already
in `processed`, in order of first appearance. -/
def newDates : List String → List String → List String
  | _, [] => []
  | processed, d :: ds =>
    if d ∈ processed then newDates processed ds
    else d :: newDates (d :: processed) ds

/-- The date sequence of a forecast item list, defined on the items whose
date computation succeeds. -/
def datesOf (items : List FcItem) : List String :=
  items.filterMap (fun it => (itemDate it).toOption)

/-- A forecast list item on which every field access of the loop body
succeeds: the date, temperature and description reads all return a
value. -/
def wfFcItem (it : FcItem) : Bool :=
  (itemDate it).toOption.isSome && (itemTemp it).toOption.isSome &&
    (itemDescription it).toOption.isSome

/-- Whether an item's computed calendar date is `d`. -/
def hasDate (d : String) (it : FcItem) : Bool :=
  match itemDate it with
  | Except.ok d2 => d2 == d
  | Except.error _ => false

/-- The first response item bearing calendar date `d`. -/
def firstItemFor (items : List FcItem) (d : String) : Option FcItem :=
  items.find? (hasDate d)

/-! ## Supporting lemmas -/


/-- Every event produced by the loop body is one of the two fixed
intermediate events. -/
theorem stepEvent_eq_some {m : TraceMessage} {e : ProgressEvent}
    (h : stepEvent m = some e) : e = checkingEvent ∨ e = processingEvent := by
  cases m with
  | ai tcs =>
    simp only [stepEvent] at h
    split at h
    · exact Or.inl (Option.some.inj h).symm
    · cases h
  | toolResult c =>
    simp only [stepEvent] at h
    exact Or.inr (Option.some.inj h).symm
  | other t =>
    simp only [stepEvent] at h
    cases h

/-- The classifier's output always sets at least one of the two flags. -/
theorem get_agent_response_terminal (st : GraphState) :
    isTerminalEvent (get_agent_response st) = true := by
  obtain ⟨msgs, sf⟩ := st
  cases sf with
  | absent => rfl
  | wrongShape t => rfl
  | wellTyped r =>
    obtain ⟨status, message⟩ := r
    cases status <;> rfl

/-- Neither intermediate event is terminal. -/
theorem intermediate_not_terminal :
    isTerminalEvent checkingEvent = false ∧ isTerminalEvent processingEvent = false :=
  ⟨rfl, rfl⟩

/-! ## Claim theorems -/

/-- C1: for every terminal graph state, `get_agent_response` reports
`is_task_complete = true` exactly when the state carries a present,
well-typed structured result with status `completed`; a well-typed result
with any other status yields the non-complete, requires-input event
carrying the result's message; and a missing or wrong-shape structured
result yields the non-complete, requires-input event carrying the fixed
generic retry message. -/
theorem c1_classifier_decision (st : GraphState) :
    ((get_agent_response st).is_task_complete = true ↔
      ∃ r, st.structured_response = StructuredField.wellTyped r ∧
        r.status = RStatus.completed)
    ∧ (∀ r, st.structured_response = StructuredField.wellTyped r →
        r.status = RStatus.completed →
        get_agent_response st =
          { is_task_complete := true, require_user_input := false
            content := r.message })
    ∧ (∀ r, st.structured_response = StructuredField.wellTyped r →
        r.status ≠ RStatus.completed →
        get_agent_response st =
          { is_task_complete := false, require_user_input := true
            content := r.message })
    ∧ ((∀ r, st.structured_response ≠ StructuredField.wellTyped r) →
        get_agent_response st =
          { is_task_complete := false, require_user_input := true
            content := genericRetryMessage }) := by
  obtain ⟨msgs, sf⟩ := st
  cases sf with
  | absent =>
    refine ⟨?_, ?_, ?_, fun _ => rfl⟩
    · simp [get_agent_response]
    · intro r hr
      simp at hr
    · intro r hr
      simp at hr
  | wrongShape t =>
    refine ⟨?_, ?_, ?_, fun _ => rfl⟩
    · simp [get_agent_response]
    · intro r hr
      simp at hr
    · intro r hr
      simp at hr
  | wellTyped r =>
    obtain ⟨status, message⟩ := r
    cases status with
    | input_required =>
      refine ⟨?_, ?_, ?_, ?_⟩
      · simp [get_agent_response]
      · intro r' hr' hs
        simp at hr'
        subst hr'
        simp at hs
      · intro r' hr' _
        simp at hr'
        subst hr'
        rfl
      · intro h
        exact absurd rfl (h _)
    | error =>
      refine ⟨?_, ?_, ?_, ?_⟩
      · simp [get_agent_response]
      · intro r' hr' hs
        simp at hr'
        subst hr'
        simp at hs
      · intro r' hr' _
        simp at hr'
        subst hr'
        rfl
      · intro h
        exact absurd rfl (h _)
    | completed =>
      refine ⟨?_, ?_, ?_, ?_⟩
      · simp [get_agent_response]
      · intro r' hr' _
        simp at hr'
        subst hr'
        rfl
      · intro r' hr' hs
        simp at hr'
        subst hr'
        exact absurd rfl hs
      · intro h
        exact absurd rfl (h _)

/-- C1 witness: a concrete completed state is classified as complete. -/
theorem c1_classifier_decision_witness :
    get_agent_response
        { messages := []
          structured_response := StructuredField.wellTyped
            { status := RStatus.completed, message := "Sunny in London" } } =
      { is_task_complete := true, require_user_input := false
        content := "Sunny in London" } :=
  (c1_classifier_decision _).2.1 _ rfl rfl

/-- C8: classification is a pure, deterministic function of the state's
structured result: two states with the same `structured_response` (their
other components may differ) classify to the same `ProgressEvent`, so
classifying the same terminal state twice yields the same event. -/
theorem c8_classifier_pure (s₁ s₂ : GraphState)
    (h : s₁.structured_response = s₂.structured_response) :
    get_agent_response s₁ = get_agent_response s₂ := by
  obtain ⟨m₁, f₁⟩ := s₁
  obtain ⟨m₂, f₂⟩ := s₂
  simp only at h
  cases h
  rfl

/-- C8 witness: two states differing in message history but agreeing on
the structured result classify identically. -/
theorem c8_classifier_pure_witness :
    get_agent_response
        { messages := [TraceMessage.other "user turn"]
          structured_response := StructuredField.wellTyped
            { status := RStatus.completed, message := "done" } } =
      get_agent_response
        { messages := []
          structured_response := StructuredField.wellTyped
            { status := RStatus.completed, message := "done" } } :=
  c8_classifier_pure _ _ rfl

/-- C5: whatever the ambient event-loop state, if the remote tool round
trip raises any exception, `call_mcp_tool_sync` returns the string
`"Error calling <tool_name>: <detail>"` — which contains the tool name
and the exception detail — and its result never depends on the event-loop
branch taken, so a string is always returned and no exception escapes. -/
theorem c5_adapter_failure_containment (ls : LoopState) (tool_name : String)
    (arguments : JsonValue) (outcome : RemoteOutcome) :
    (∀ d, outcome = RemoteOutcome.exn d →
      call_mcp_tool_sync ls tool_name arguments outcome =
        "Error calling " ++ tool_name ++ ": " ++ d)
    ∧ (∀ ls₂, call_mcp_tool_sync ls tool_name arguments outcome =
        call_mcp_tool_sync ls₂ tool_name arguments outcome) := by
  constructor
  · rintro d rfl
    cases ls <;> rfl
  · intro ls₂
    cases ls <;> cases ls₂ <;> rfl

/-- C5 witness: a concrete timeout during a running event loop is
converted to the descriptive error string. -/
theorem c5_adapter_failure_containment_witness :
    call_mcp_tool_sync LoopState.running "get_current_weather"
        (JsonValue.obj []) (RemoteOutcome.exn "Connection timeout") =
      "Error calling get_current_weather: Connection timeout" :=
  (c5_adapter_failure_containment LoopState.running "get_current_weather"
    (JsonValue.obj []) _).1 "Connection timeout" rfl

/-- C9: a tool call that completes without an exception but whose result
carries no content items — the content list absent or empty — makes the
adapter return the non-empty string `"No result from <tool_name>"` in
every event-loop state, rather than raising or returning an empty
string. -/
theorem c9_no_result_fallback (ls : LoopState) (tool_name : String)
    (arguments : JsonValue) :
    call_mcp_tool_sync ls tool_name arguments (RemoteOutcome.ok none) =
      "No result from " ++ tool_name
    ∧ call_mcp_tool_sync ls tool_name arguments (RemoteOutcome.ok (some [])) =
      "No result from " ++ tool_name
    ∧ ("No result from " ++ tool_name).length = 15 + tool_name.length := by
  refine ⟨?_, ?_, ?_⟩
  · cases ls <;> rfl
  · cases ls <;> rfl
  · rw [String.length_append]
    rfl

/-- C4: the argument mapping computed by `tool_function` is total: when
the input starts with an opening brace and ends with a closing brace and
`json.loads` succeeds, the mapping is the parsed JSON value; when the
brace pattern matches but parsing fails, and when the brace pattern does
not match, the mapping is the single-field object binding `"location"` to
the stripped input — no exception escapes the parsing step.  On the
concrete inputs: a JSON object parses through, a bare city name and a
non-terminated brace string both fall back to the location wrapping. -/
theorem c4_tool_input_parsing :
    (∀ (json_loads : String → Option JsonValue) (s : String) (v : JsonValue),
      pyStartsWith s openBraceChar = true → pyEndsWith s closeBraceChar = true →
      json_loads s = some v → tool_function_arguments json_loads s = v)
    ∧ (∀ (json_loads : String → Option JsonValue) (s : String),
      pyStartsWith s openBraceChar = true → pyEndsWith s closeBraceChar = true →
      json_loads s = none →
      tool_function_arguments json_loads s =
        JsonValue.obj [("location", JsonValue.str (pyStrip s))])
    ∧ (∀ (json_loads : String → Option JsonValue) (s : String),
      (pyStartsWith s openBraceChar && pyEndsWith s closeBraceChar) = false →
      tool_function_arguments json_loads s =
        JsonValue.obj [("location", JsonValue.str (pyStrip s))])
    ∧ tool_function_arguments jsonLoadsObj "\x7b\"location\": \"Paris\"\x7d" =
        JsonValue.obj [("location", JsonValue.str "Paris")]
    ∧ tool_function_arguments jsonLoadsObj "Paris" =
        JsonValue.obj [("location", JsonValue.str "Paris")]
    ∧ tool_function_arguments jsonLoadsObj "\x7bnot json" =
        JsonValue.obj [("location", JsonValue.str "\x7bnot json")] := by
  refine ⟨?_, ?_, ?_, rfl, rfl, rfl⟩
  · intro json_loads s v h1 h2 h3
    unfold tool_function_arguments
    rw [h1, h2]
    simp [h3]
  · intro json_loads s h1 h2 h3
    unfold tool_function_arguments
    rw [h1, h2]
    simp [h3]
  · intro json_loads s h12
    unfold tool_function_arguments
    rw [h12]
    simp

/-- C4 witness: the parsed-JSON branch at a concrete two-brace input. -/
theorem c4_tool_input_parsing_witness :
    tool_function_arguments (fun _ => some (JsonValue.obj [])) "\x7b\x7d" =
      JsonValue.obj [] :=
  c4_tool_input_parsing.1 (fun _ => some (JsonValue.obj [])) "\x7b\x7d"
    (JsonValue.obj []) rfl rfl rfl

/-- C6 counterexample: the zero-tools failure is not a distinct error
class.  The `except` clause of `discover_mcp_tools` catches the
`"No tools found on MCP server."` exception its own body raised and
re-raises it as the same generic `Exception` used for an unreachable
endpoint, wrapped in the very same `"Failed to connect to MCP server: "`
message; so a zero-tools response surfaces as a connection-failure-class
error, not as a separate `NoToolsAvailable`-class one. -/
theorem c6_counterexample_same_error_class :
    discover_mcp_tools (ConnectOutcome.tools []) =
      Except.error ("Failed to connect to MCP server: " ++
        "No tools found on MCP server.")
    ∧ discover_mcp_tools (ConnectOutcome.unreachable "connection refused") =
      Except.error ("Failed to connect to MCP server: " ++ "connection refused") :=
  ⟨rfl, rfl⟩

/-- C6 (amended): tool discovery raises on an unreachable endpoint and
independently on a zero-tools response, but both failures surface as the
same generic exception class whose message starts with
`"Failed to connect to MCP server: "`; the zero-tools failure is
distinguished only by its wrapped `"No tools found on MCP server."`
detail.  In both failure cases the exception propagates out of agent
construction, so no agent is created and there is no empty-tool-set
operating mode; with a non-empty tool list construction succeeds with one
wrapped tool per advertised tool. -/
theorem c6_discovery_failures (o : ConnectOutcome) :
    (∀ d, o = ConnectOutcome.unreachable d →
      discover_mcp_tools o =
        Except.error ("Failed to connect to MCP server: " ++ d)
      ∧ weatherAgentInit o =
        Except.error ("Failed to connect to MCP server: " ++ d))
    ∧ (o = ConnectOutcome.tools [] →
      discover_mcp_tools o =
        Except.error ("Failed to connect to MCP server: " ++
          "No tools found on MCP server.")
      ∧ weatherAgentInit o =
        Except.error ("Failed to connect to MCP server: " ++
          "No tools found on MCP server."))
    ∧ (∀ ts, o = ConnectOutcome.tools ts → ts ≠ [] →
      weatherAgentInit o = Except.ok { tools := ts.map create_langchain_tool }) := by
  refine ⟨?_, ?_, ?_⟩
  · rintro d rfl
    exact ⟨rfl, rfl⟩
  · rintro rfl
    exact ⟨rfl, rfl⟩
  · rintro ts rfl hne
    cases ts with
    | nil => exact absurd rfl hne
    | cons t ts' => rfl

/-- C6 witness: the zero-tools case at a concrete input makes agent
construction fail with the wrapped error. -/
theorem c6_discovery_failures_witness :
    weatherAgentInit (ConnectOutcome.tools []) =
      Except.error ("Failed to connect to MCP server: " ++
        "No tools found on MCP server.") :=
  ((c6_discovery_failures (ConnectOutcome.tools [])).2.1 rfl).2

/-- C2: on every trace that contains exactly one assistant message
requesting at least one tool call followed by exactly one tool-result
message — every other trace element yielding no event — `stream` produces
exactly three events: the checking-weather event, then the
processing-data event, then the classifier's terminal event; and both
intermediate events carry `is_task_complete = false` and
`require_user_input = false` with their fixed contents. -/
theorem c2_stream_tool_roundtrip (query context_id : String)
    (pre mid post : List TraceMessage) (tcs : List String) (c : String)
    (final : GraphState) (htc : tcs ≠ [])
    (hpre : ∀ m ∈ pre, stepEvent m = none)
    (hmid : ∀ m ∈ mid, stepEvent m = none)
    (hpost : ∀ m ∈ post, stepEvent m = none) :
    stream query context_id
        (pre ++ TraceMessage.ai tcs :: (mid ++ TraceMessage.toolResult c :: post))
        final
      = [checkingEvent, processingEvent, get_agent_response final]
    ∧ checkingEvent =
        { is_task_complete := false, require_user_input := false
          content := "Checking the weather..." }
    ∧ processingEvent =
        { is_task_complete := false, require_user_input := false
          content := "Processing weather data.." } := by
  refine ⟨?_, rfl, rfl⟩
  have hpre' : pre.filterMap stepEvent = [] := List.filterMap_eq_nil_iff.mpr hpre
  have hmid' : mid.filterMap stepEvent = [] := List.filterMap_eq_nil_iff.mpr hmid
  have hpost' : post.filterMap stepEvent = [] := List.filterMap_eq_nil_iff.mpr hpost
  have hai : stepEvent (TraceMessage.ai tcs) = some checkingEvent := by
    simp only [stepEvent]
    rw [if_pos (List.length_pos.mpr htc)]
  unfold stream
  rw [List.filterMap_append, hpre',
    List.filterMap_cons_some hai,
    List.filterMap_append, hmid',
    List.filterMap_cons_some (rfl : stepEvent (TraceMessage.toolResult c) = some processingEvent),
    hpost']
  rfl

/-- C2 witness: a concrete two-step trace yields exactly the three
events. -/
theorem c2_stream_tool_roundtrip_witness :
    stream "What is the weather in London?" "conv-1"
        [TraceMessage.ai ["get_current_weather"], TraceMessage.toolResult "sunny"]
        { messages := []
          structured_response := StructuredField.wellTyped
            { status := RStatus.completed, message := "It is sunny in London." } }
      = [checkingEvent, processingEvent,
          { is_task_complete := true, require_user_input := false
            content := "It is sunny in London." }] := by
  have h := (c2_stream_tool_roundtrip "What is the weather in London?" "conv-1"
    [] [] [] ["get_current_weather"] "sunny"
    { messages := []
      structured_response := StructuredField.wellTyped
        { status := RStatus.completed, message := "It is sunny in London." } }
    (by simp) (by simp) (by simp) (by simp)).1
  exact h

/-- C3: for every query, conversation id, underlying trace (empty traces
and traces with elements of unrecognised shape included) and final state,
`stream` ends with the classifier's event, that event is terminal (it
sets a flag), every event before it is a non-terminal intermediate event
coming from the per-element mapping — elements of any other shape
contribute nothing — and a trace producing no intermediate event (in
particular a session with zero tool calls) yields exactly the one
terminal event. -/
theorem c3_stream_terminal_exactly_once (query context_id : String)
    (trace : List TraceMessage) (final : GraphState) :
    (stream query context_id trace final).getLast? =
      some (get_agent_response final)
    ∧ isTerminalEvent (get_agent_response final) = true
    ∧ (stream query context_id trace final).dropLast = trace.filterMap stepEvent
    ∧ (∀ e ∈ (stream query context_id trace final).dropLast,
        isTerminalEvent e = false)
    ∧ ((∀ m ∈ trace, stepEvent m = none) →
        stream query context_id trace final = [get_agent_response final]) := by
  refine ⟨?_, get_agent_response_terminal final, ?_, ?_, ?_⟩
  · unfold stream
    exact List.getLast?_concat _
  · unfold stream
    exact List.dropLast_concat
  · intro e he
    rw [stream, List.dropLast_concat, List.mem_filterMap] at he
    obtain ⟨m, -, hm⟩ := he
    rcases stepEvent_eq_some hm with h | h <;> rw [h] <;> rfl
  · intro hnone
    unfold stream
    rw [List.filterMap_eq_nil_iff.mpr hnone]
    rfl

/-- C3 witness: the empty trace (zero tool calls) yields exactly one
event, the terminal one. -/
theorem c3_stream_terminal_exactly_once_witness :
    stream "hello" "conv-2" []
        { messages := [], structured_response := StructuredField.absent }
      = [{ is_task_complete := false, require_user_input := true
           content := genericRetryMessage }] := by
  have h := (c3_stream_terminal_exactly_once "hello" "conv-2" []
    { messages := [], structured_response := StructuredField.absent }).2.2.2.2
    (by intro m hm; cases hm)
  rw [h]
  rfl

/-- C10: both weather tools are total string-valued functions: for every
location (and day count for the forecast tool) and every fetch outcome,
the tool returns either the body's success string or — whenever any step
of the body failed (HTTP error, missing field, malformed data) — an error
string that is literally `"Error:"` followed by text containing the
requested location; no exception escapes either tool. -/
theorem c10_tools_total_error_strings (location : String) (days : Int) :
    (∀ o : FetchOutcome CurrentPayload,
      (∃ s, current_weather_body location o = Except.ok s ∧
        get_current_weather location o = s)
      ∨ (∃ e, current_weather_body location o = Except.error e ∧
          get_current_weather location o =
            "Error: Failed to get weather for " ++ location ++ ": " ++ e ∧
          get_current_weather location o =
            "Error:" ++ (" Failed to get weather for " ++ location ++ ": " ++ e)))
    ∧ (∀ o : FetchOutcome ForecastPayload,
      (∃ s, forecast_body location days o = Except.ok s ∧
        get_weather_forecast location days o = s)
      ∨ (∃ e, forecast_body location days o = Except.error e ∧
          get_weather_forecast location days o =
            "Error: Failed to get forecast for " ++ location ++ ": " ++ e ∧
          get_weather_forecast location days o =
            "Error:" ++ (" Failed to get forecast for " ++ location ++ ": " ++ e))) := by
  constructor
  · intro o
    cases hb : current_weather_body location o with
    | ok s =>
      left
      refine ⟨s, rfl, ?_⟩
      unfold get_current_weather
      rw [hb]
    | error e =>
      right
      have h1 : get_current_weather location o =
          "Error: Failed to get weather for " ++ location ++ ": " ++ e := by
        unfold get_current_weather
        rw [hb]
      refine ⟨e, rfl, h1, ?_⟩
      rw [h1]
      simp only [← String.append_assoc]
      rfl
  · intro o
    cases hb : forecast_body location days o with
    | ok s =>
      left
      refine ⟨s, rfl, ?_⟩
      unfold get_weather_forecast
      rw [hb]
    | error e =>
      right
      have h1 : get_weather_forecast location days o =
          "Error: Failed to get forecast for " ++ location ++ ": " ++ e := by
        unfold get_weather_forecast
        rw [hb]
      refine ⟨e, rfl, h1, ?_⟩
      rw [h1]
      simp only [← String.append_assoc]
      rfl

/-- A date collected by `newDates` was not already processed. -/
theorem newDates_mem_not_mem :
    ∀ (ds processed : List String) (d : String),
    d ∈ newDates processed ds → d ∉ processed := by
  intro ds
  induction ds with
  | nil =>
    intro processed d h
    simp [newDates] at h
  | cons a as ih =>
    intro processed d h
    simp only [newDates] at h
    by_cases ha : a ∈ processed
    · rw [if_pos ha] at h
      exact ih processed d h
    · rw [if_neg ha] at h
      rcases List.mem_cons.mp h with rfl | h2
      · exact ha
      · intro hd
        exact ih (a :: processed) d h2 (List.mem_cons_of_mem a hd)

/-- The dates collected by `newDates` are pairwise distinct. -/
theorem newDates_nodup :
    ∀ (ds processed : List String), (newDates processed ds).Nodup := by
  intro ds
  induction ds with
  | nil =>
    intro processed
    simp [newDates]
  | cons a as ih =>
    intro processed
    simp only [newDates]
    by_cases ha : a ∈ processed
    · rw [if_pos ha]
      exact ih processed
    · rw [if_neg ha]
      refine List.nodup_cons.mpr ⟨?_, ih (a :: processed)⟩
      intro hmem
      exact newDates_mem_not_mem as (a :: processed) a hmem
        (List.mem_cons_self a processed)

/-- Invariant of the forecast de-duplication loop: on well-formed items
it never fails, the dates of the produced entries are the not-yet-
processed first-occurrence dates capped at the remaining budget, and each
produced entry carries the temperature and description of the first
response item bearing its date. -/
theorem buildDailyForecasts_invariant (days : Int) :
    ∀ (items : List FcItem) (processed : List String) (count : Nat),
    (∀ it ∈ items, wfFcItem it = true) →
    ∃ fc, buildDailyForecasts days items processed count = Except.ok fc
      ∧ fc.map ForecastItem.date =
          (newDates processed (datesOf items)).take (days.toNat - count)
      ∧ (∀ fi ∈ fc, ∃ it, firstItemFor items fi.date = some it
          ∧ itemDate it = Except.ok fi.date
          ∧ itemTemp it = Except.ok fi.temperature
          ∧ itemDescription it = Except.ok fi.description) := by
  intro items
  induction items with
  | nil =>
    intro processed count _
    refine ⟨[], rfl, ?_, by simp⟩
    simp [datesOf, newDates]
  | cons it rest ih =>
    intro processed count hwf
    have hwf_it := hwf it (List.mem_cons_self it rest)
    have hwf_rest : ∀ x ∈ rest, wfFcItem x = true :=
      fun x hx => hwf x (List.mem_cons_of_mem it hx)
    obtain ⟨d, hd⟩ : ∃ d, itemDate it = Except.ok d := by
      rcases hdate : itemDate it with e | d
      · rw [wfFcItem, hdate] at hwf_it
        simp [Except.toOption] at hwf_it
      · exact ⟨d, rfl⟩
    have hdates : datesOf (it :: rest) = d :: datesOf rest := by
      unfold datesOf
      rw [List.filterMap_cons_some (by rw [hd]; rfl)]
    by_cases hmem : d ∈ processed
    · obtain ⟨fc, hfc, hmap, hfind⟩ := ih processed count hwf_rest
      refine ⟨fc, ?_, ?_, ?_⟩
      · simp only [buildDailyForecasts, hd]
        rw [if_neg (fun hcon => hcon.1 hmem)]
        exact hfc
      · rw [hmap, hdates]
        simp only [newDates]
        rw [if_pos hmem]
      · intro fi hfi
        obtain ⟨it', hfind', h1, h2, h3⟩ := hfind fi hfi
        have hne : fi.date ≠ d := by
          have hmemtake : fi.date ∈
              (newDates processed (datesOf rest)).take (days.toNat - count) := by
            rw [← hmap]
            exact List.mem_map_of_mem ForecastItem.date hfi
          have hnp : fi.date ∉ processed :=
            newDates_mem_not_mem _ _ _ (List.mem_of_mem_take hmemtake)
          intro heq
          rw [heq] at hnp
          exact hnp hmem
        refine ⟨it', ?_, h1, h2, h3⟩
        unfold firstItemFor
        rw [List.find?_cons_of_neg]
        · exact hfind'
        · simp [hasDate, hd]
          exact fun heq => hne heq.symm
    · by_cases hcnt : (count : Int) < days
      · obtain ⟨t, ht⟩ : ∃ t, itemTemp it = Except.ok t := by
          rcases htemp : itemTemp it with e | t
          · rw [wfFcItem, htemp] at hwf_it
            simp [Except.toOption] at hwf_it
          · exact ⟨t, rfl⟩
        obtain ⟨s, hs⟩ : ∃ s, itemDescription it = Except.ok s := by
          rcases hdescr : itemDescription it with e | s
          · rw [wfFcItem, hdescr] at hwf_it
            simp [Except.toOption] at hwf_it
          · exact ⟨s, rfl⟩
        obtain ⟨fc, hfc, hmap, hfind⟩ := ih (d :: processed) (count + 1) hwf_rest
        refine ⟨{ date := d, temperature := t, description := s } :: fc, ?_, ?_, ?_⟩
        · simp only [buildDailyForecasts, hd, ht, hs, hfc]
          rw [if_pos ⟨hmem, hcnt⟩]
        · have harith : days.toNat - count = (days.toNat - (count + 1)) + 1 := by
            omega
          rw [List.map_cons, hmap, hdates]
          simp only [newDates]
          rw [if_neg hmem, harith, List.take_succ_cons]
        · intro fi hfi
          rcases List.mem_cons.mp hfi with rfl | hfi'
          · refine ⟨it, ?_, hd, ht, hs⟩
            unfold firstItemFor
            rw [List.find?_cons_of_pos]
            simp [hasDate, hd]
          · obtain ⟨it', hfind', h1, h2, h3⟩ := hfind fi hfi'
            have hne : fi.date ≠ d := by
              have hmemtake : fi.date ∈
                  (newDates (d :: processed) (datesOf rest)).take
                    (days.toNat - (count + 1)) := by
                rw [← hmap]
                exact List.mem_map_of_mem ForecastItem.date hfi'
              have hnp : fi.date ∉ d :: processed :=
                newDates_mem_not_mem _ _ _ (List.mem_of_mem_take hmemtake)
              intro heq
              rw [heq] at hnp
              exact hnp (List.mem_cons_self d processed)
            refine ⟨it', ?_, h1, h2, h3⟩
            unfold firstItemFor
            rw [List.find?_cons_of_neg]
            · exact hfind'
            · simp [hasDate, hd]
              exact fun heq => hne heq.symm
      · obtain ⟨fc, hfc, hmap, hfind⟩ := ih processed count hwf_rest
        have hzero : days.toNat - count = 0 := by omega
        have hfc_nil : fc = [] := by
          have hm := hmap
          rw [hzero, List.take_zero] at hm
          exact List.map_eq_nil_iff.mp hm
        refine ⟨fc, ?_, ?_, ?_⟩
        · simp only [buildDailyForecasts, hd]
          rw [if_neg (fun hcon => hcnt hcon.2)]
          exact hfc
        · rw [hfc_nil, List.map_nil, hzero, List.take_zero]
        · intro fi hfi
          rw [hfc_nil] at hfi
          cases hfi

/-- C7 counterexample: the claim's cap "at most `days` entries" fails for
a negative day count.  At `days = -1` on a well-formed one-item response
the loop builds the empty forecast, and its length `0` is strictly
greater than `-1`, so the forecast does not contain "at most `days`"
entries; the code caps at `max days 0` instead. -/
theorem c7_counterexample_negative_days :
    buildDailyForecasts (-1)
        [{ dt_txt := some "2024-01-01 00:00:00"
           main := some
             { temp := some 5, feels_like := none, humidity := none
               pressure := none }
           weather := some [{ description := some "clear sky" }] }] [] 0 =
      Except.ok []
    ∧ (-1 : Int) < ((([] : List ForecastItem).length : Int)) :=
  ⟨rfl, by decide⟩

/-- C7 (amended): for every well-formed forecast response list and every
integer day count, the de-duplication loop succeeds and the built
forecast contains at most `max days 0` entries, its calendar dates are
pairwise distinct and are exactly the first `days` (clamped below at 0)
distinct dates of the response in first-occurrence order, and each entry
carries the temperature and the title-cased description of the first
response item bearing its date. -/
theorem c7_forecast_dedup (days : Int) (items : List FcItem)
    (hwf : ∀ it ∈ items, wfFcItem it = true) :
    ∃ fc, buildDailyForecasts days items [] 0 = Except.ok fc
      ∧ (fc.length : Int) ≤ max days 0
      ∧ (fc.map ForecastItem.date).Nodup
      ∧ fc.map ForecastItem.date = (newDates [] (datesOf items)).take days.toNat
      ∧ (∀ fi ∈ fc, ∃ it, firstItemFor items fi.date = some it
          ∧ itemDate it = Except.ok fi.date
          ∧ itemTemp it = Except.ok fi.temperature
          ∧ itemDescription it = Except.ok fi.description) := by
  obtain ⟨fc, hfc, hmap, hfind⟩ := buildDailyForecasts_invariant days items [] 0 hwf
  rw [Nat.sub_zero] at hmap
  refine ⟨fc, hfc, ?_, ?_, hmap, hfind⟩
  · have hlen : fc.length ≤ days.toNat := by
      have hcg := congrArg List.length hmap
      rw [List.length_map] at hcg
      rw [hcg]
      exact List.length_take_le _ _
    omega
  · rw [hmap]
    exact (List.take_sublist _ _).nodup (newDates_nodup _ _)

/-- C7 witness: the loop succeeds on a concrete well-formed three-item
response with a repeated date and a two-day cap. -/
theorem c7_forecast_dedup_witness :
    (buildDailyForecasts 2
        [{ dt_txt := some "2024-01-01 00:00:00"
           main := some
             { temp := some 5, feels_like := none, humidity := none
               pressure := none }
           weather := some [{ description := some "clear sky" }] },
         { dt_txt := some "2024-01-01 03:00:00"
           main := some
             { temp := some 7, feels_like := none, humidity := none
               pressure := none }
           weather := some [{ description := some "mist" }] },
         { dt_txt := some "2024-01-02 00:00:00"
           main := some
             { temp := some 9, feels_like := none, humidity := none
               pressure := none }
           weather := some [{ description := some "rain" }] }]
        [] 0).toOption.isSome = true := by
  obtain ⟨fc, hfc, -⟩ := c7_forecast_dedup 2
    [{ dt_txt := some "2024-01-01 00:00:00"
       main := some
         { temp := some 5, feels_like := none, humidity := none
           pressure := none }
       weather := some [{ description := some "clear sky" }] },
     { dt_txt := some "2024-01-01 03:00:00"
       main := some
         { temp := some 7, feels_like := none, humidity := none
           pressure := none }
       weather := some [{ description := some "mist" }] },
     { dt_txt := some "2024-01-02 00:00:00"
       main := some
         { temp := some 9, feels_like := none, humidity := none
           pressure := none }
       weather := some [{ description := some "rain" }] }]
    (by decide)
  rw [hfc]
  rfl
